import Mathlib

/-
  Verification of the moodle-painkillers core against its design document.

  The Python source is shallowly embedded: an HTML document (as produced by
  bs4.BeautifulSoup with html.parser) is a list of element tags in document
  order; `soup.find` is `List.find?`; a bs4 `Tag.__getitem__` on a missing
  attribute raises KeyError; the network is an oracle mapping the index of
  the request being issued to the response served for it, and each stateful
  function returns the trace of requests it issued together with the Python
  exception it raised, if any.
-/

namespace Moodle

/-- An HTML element as seen through bs4: tag name, attribute list
(html.parser keeps one occurrence per attribute name), and the element's
`.string` content (none when the element has no unique string child). -/
structure Tag where
  name : String
  attrs : List (String × String)
  str : Option String
deriving DecidableEq, Repr

/-- A parsed HTML document: its elements in document order, which is the
order `soup.find` scans. -/
abbrev Doc := List Tag

/-- Attribute lookup on an element; `none` models a KeyError from
`tag[key]` in bs4. -/
def Tag.attr (t : Tag) (k : String) : Option String :=
  (t.attrs.find? (fun p => p.fst == k)).map Prod.snd

/-- The Python exceptions the embedded code can raise. -/
inductive PyError where
  | valueError (msg : String)
  | keyError (key : String)
  | exn (msg : String)
deriving DecidableEq, Repr

deriving instance DecidableEq for Except

/-- The bs4 query `soup.find("input", {"type": "hidden", "name": n})`
matches an element with this predicate: tag name `input`, attribute
`type` exactly `"hidden"`, attribute `name` exactly `n`. -/
def isHiddenNamed (n : String) (t : Tag) : Bool :=
  t.name == "input" && t.attr "type" == some "hidden" && t.attr "name" == some n

/-- `get_hidden_input_value` from `moodle_painkillers/__init__.py` (the copy
in `moodle_authenticate.py` is textually identical): find the first hidden
input named `name`; if none, raise `ValueError(f"Element {name} introuvable")`;
otherwise read its `value` attribute, a KeyError when absent. -/
def get_hidden_input_value (doc : Doc) (name : String) : Except PyError String :=
  match doc.find? (isHiddenNamed name) with
  | none => .error (.valueError ("Element " ++ name ++ " introuvable"))
  | some t =>
    match t.attr "value" with
    | none => .error (.keyError "value")
    | some v => .ok v

/-- A hidden input element with the given name and value, as html.parser
would produce it. -/
def inpT (n v : String) : Tag :=
  ⟨"input", [("type", "hidden"), ("name", n), ("value", v)], none⟩

/-- A hidden input element carrying no value attribute. -/
def inpNoValue (n : String) : Tag :=
  ⟨"input", [("type", "hidden"), ("name", n)], none⟩

theorem find?_eq_head?_filter {α : Type} (p : α → Bool) (l : List α) :
    l.find? p = (l.filter p).head? := by
  induction l with
  | nil => rfl
  | cons a as ih =>
    cases h : p a with
    | true =>
      rw [List.find?_cons_of_pos _ h, List.filter_cons_of_pos h]
      rfl
    | false =>
      rw [List.find?_cons_of_neg _ (by simp [h]), List.filter_cons_of_neg (by simp [h]), ih]

theorem find?_of_filter_singleton {α : Type} {p : α → Bool} {l : List α} {t : α}
    (h : l.filter p = [t]) : l.find? p = some t := by
  rw [find?_eq_head?_filter, h]; rfl

/-- C1: a parsed document whose sole hidden input named `N` carries value
`V` makes `get_hidden_input_value doc N` return `V`; a document with no
hidden input named `N` makes it fail with the FieldNotFound error
`ValueError("Element N introuvable")`. -/
theorem extract_hidden_field_spec (doc : Doc) (N V : String) (t : Tag) :
    (doc.filter (isHiddenNamed N) = [t] → t.attr "value" = some V →
      get_hidden_input_value doc N = .ok V)
    ∧ ((∀ u ∈ doc, isHiddenNamed N u = false) →
      get_hidden_input_value doc N =
        .error (.valueError ("Element " ++ N ++ " introuvable"))) := by
  constructor
  · intro h1 h2
    unfold get_hidden_input_value
    rw [find?_of_filter_singleton h1]
    simp [h2]
  · intro h
    unfold get_hidden_input_value
    rw [List.find?_eq_none.mpr (by intro x hx; simp [h x hx])]

/-- C1 witness: concrete evaluations of both branches. -/
theorem extract_hidden_field_spec_witness :
    get_hidden_input_value [inpT "execution" "e1v"] "execution" = .ok "e1v"
    ∧ get_hidden_input_value [] "execution" =
        .error (.valueError ("Element " ++ "execution" ++ " introuvable")) := by
  refine ⟨(extract_hidden_field_spec [inpT "execution" "e1v"] "execution" "e1v"
      (inpT "execution" "e1v")).1 (by decide) (by decide),
    (extract_hidden_field_spec [] "execution" "" (inpT "" "")).2 (by decide)⟩

/-- C2 counterexample: on a document whose hidden input named `f` has no
value attribute, extraction fails with `KeyError("value")` (from
`input_element["value"]`), which is a different error from the
FieldNotFound `ValueError` raised when no matching element exists. -/
theorem extract_no_value_attr_differs_from_fieldnotfound :
    get_hidden_input_value [inpNoValue "f"] "f" = .error (.keyError "value")
    ∧ get_hidden_input_value [] "f" = .error (.valueError "Element f introuvable")
    ∧ PyError.keyError "value" ≠ PyError.valueError "Element f introuvable" := by
  refine ⟨by decide, by decide, by decide⟩

/-- C2 amended: when the sole hidden input named `N` lacks a value
attribute, extraction fails, but with the missing-attribute error
`KeyError("value")`, which is never equal to a FieldNotFound `ValueError`. -/
theorem extract_no_value_attr_keyerror (doc : Doc) (N : String) (t : Tag)
    (h1 : doc.filter (isHiddenNamed N) = [t]) (h2 : t.attr "value" = none) :
    get_hidden_input_value doc N = .error (.keyError "value")
    ∧ ∀ m, PyError.keyError "value" ≠ PyError.valueError m := by
  constructor
  · unfold get_hidden_input_value
    rw [find?_of_filter_singleton h1]
    simp [h2]
  · intro m h
    exact PyError.noConfusion h

/-- C2 amended witness: concrete evaluation at a one-element document. -/
theorem extract_no_value_attr_keyerror_witness :
    get_hidden_input_value [inpNoValue "g"] "g" = .error (.keyError "value") :=
  (extract_no_value_attr_keyerror [inpNoValue "g"] "g" (inpNoValue "g")
    (by decide) (by decide)).1

/-- C3: extraction matches the name attribute exactly: in a document that
contains a hidden input named `execution2` but no hidden input named
`execution`, extracting `execution` fails with the FieldNotFound error. -/
theorem extract_exact_name_match (doc : Doc)
    (h1 : ∃ t ∈ doc, isHiddenNamed "execution2" t = true)
    (h2 : ∀ t ∈ doc, isHiddenNamed "execution" t = false) :
    get_hidden_input_value doc "execution" =
      .error (.valueError "Element execution introuvable") := by
  unfold get_hidden_input_value
  rw [List.find?_eq_none.mpr (by intro x hx; simp [h2 x hx])]
  decide

/-- C3 witness: a document holding only `execution2` rejects `execution`. -/
theorem extract_exact_name_match_witness :
    get_hidden_input_value [inpT "execution2" "v2"] "execution" =
      .error (.valueError "Element execution introuvable") :=
  extract_exact_name_match [inpT "execution2" "v2"]
    ⟨inpT "execution2" "v2", by decide, by decide⟩ (by decide)

/-- An HTTP response as the embedded code observes it: status code, the
parsed body (`bs4.BeautifulSoup(res.text, "html.parser")`), the raw body
text (for substring tests), the final URL and the cookie set. -/
structure Response where
  status : Nat
  doc : Doc
  raw : String
  url : String
  cookies : String
deriving DecidableEq, Repr

/-- A network request as issued through the `requests` session: a GET of a
URL, or a POST of form data, optionally with an explicit cookie argument. -/
inductive Request where
  | get (url : String)
  | post (url : String) (data : List (String × String)) (cookies : Option String)
deriving DecidableEq, Repr

/-- The network oracle: the n-th request issued in the run receives
response `T n`. -/
abbrev Transport := Nat → Response

def loginUrl : String := "https://moodle.univ-ubs.fr/auth/shibboleth/login.php"

def samlConsumerUrl : String := "https://moodle.univ-ubs.fr/Shibboleth.sso/SAML2/POST"

def attendanceUrl : String :=
  "https://moodle.univ-ubs.fr/mod/attendance/view.php?id=433340"

def idpData : List (String × String) :=
  [("idp", "urn:mace:cru.fr:federation:univ-ubs.fr")]

/-- The credential-submission form body of step 3. -/
def credentialData (username password execution : String) : List (String × String) :=
  [("username", username), ("password", password), ("execution", execution),
   ("_eventId", "submit"), ("geolocation", "")]

/-- The characters before the first `?`. -/
def takeBeforeQ : List Char → List Char
  | [] => []
  | c :: cs => if c == '?' then [] else c :: takeBeforeQ cs

/-- `res.url.split("?")[0]`: everything before the first `?` (the whole
string when it has no `?`). -/
def urlStripQuery (u : String) : String := ⟨takeBeforeQ u.data⟩

def loginPageErr (s : Nat) : PyError :=
  .exn (toString s ++ " Failed to get login page")

def idpPageErr (s : Nat) : PyError :=
  .exn (toString s ++ " Failed to authenticate on login page")

def samlMissingErr : PyError :=
  .exn "Failed to extract SAML response parameters. Are the credentials correct?"

/-- `authenticate_on_moodle` from `moodle_painkillers/__init__.py`: the
four-request Shibboleth handshake, returning the trace of requests issued
and the exception raised, if any. Statuses are checked only after the
first two responses; the missing-field errors of step 3 propagate raw. -/
def authenticate_on_moodle (T : Transport) (username password : String) :
    List Request × Option PyError :=
  let r1 := T 0
  if r1.status ≠ 200 then
    ([.get loginUrl], some (loginPageErr r1.status))
  else
    let r2 := T 1
    let reqs2 : List Request :=
      [.get loginUrl, .post loginUrl idpData (some r1.cookies)]
    if r2.status ≠ 200 then
      (reqs2, some (idpPageErr r2.status))
    else
      match get_hidden_input_value r2.doc "execution" with
      | .error e => (reqs2, some e)
      | .ok execution =>
        let r3 := T 2
        let reqs3 := reqs2 ++
          [.post (urlStripQuery r2.url) (credentialData username password execution) none]
        match get_hidden_input_value r3.doc "RelayState" with
        | .error e => (reqs3, some e)
        | .ok relay =>
          match get_hidden_input_value r3.doc "SAMLResponse" with
          | .error e => (reqs3, some e)
          | .ok saml =>
            (reqs3 ++
              [.post samlConsumerUrl [("RelayState", relay), ("SAMLResponse", saml)] none],
             none)

/-- The `try` block of `MoodleAuthenticatedSession.authenticate_on_moodle`:
extract `RelayState`, then `SAMLResponse`, stopping at the first failure. -/
def samlFields (doc : Doc) : Except PyError (String × String) :=
  match get_hidden_input_value doc "RelayState" with
  | .error e => .error e
  | .ok relay =>
    match get_hidden_input_value doc "SAMLResponse" with
    | .error e => .error e
    | .ok saml => .ok (relay, saml)

/-- `MoodleAuthenticatedSession.authenticate_on_moodle` from
`moodle_painkillers/moodle_authenticate.py`: identical to the module-level
function except that a `ValueError` from the `RelayState`/`SAMLResponse`
extraction is caught and re-raised as the credentials-likely-incorrect
exception (a `KeyError` there is not caught by `except ValueError`). -/
def MoodleAuthenticatedSession.authenticate_on_moodle
    (T : Transport) (username password : String) :
    List Request × Option PyError :=
  let r1 := T 0
  if r1.status ≠ 200 then
    ([.get loginUrl], some (loginPageErr r1.status))
  else
    let r2 := T 1
    let reqs2 : List Request :=
      [.get loginUrl, .post loginUrl idpData (some r1.cookies)]
    if r2.status ≠ 200 then
      (reqs2, some (idpPageErr r2.status))
    else
      match get_hidden_input_value r2.doc "execution" with
      | .error e => (reqs2, some e)
      | .ok execution =>
        let r3 := T 2
        let reqs3 := reqs2 ++
          [.post (urlStripQuery r2.url) (credentialData username password execution) none]
        match samlFields r3.doc with
        | .error (.valueError _) => (reqs3, some samlMissingErr)
        | .error e => (reqs3, some e)
        | .ok (relay, saml) =>
          (reqs3 ++
            [.post samlConsumerUrl [("RelayState", relay), ("SAMLResponse", saml)] none],
           none)

def presenceLabel : String := "Envoyer le statut de présence"

def confirmationText : String := "Votre présence à cette session a été enregistrée."

def notFoundErr : PyError :=
  .exn "Could not find the send status cell. Did you already checked in?"

def rejectedErr : PyError := .exn "Failed to register presence status."

/-- The bs4 query `soup.find("a", string="Envoyer le statut de présence")`
matches an anchor whose `.string` equals that label exactly. -/
def isPresenceAnchor (t : Tag) : Bool :=
  t.name == "a" && t.str == some presenceLabel

/-- Does `needle` occur at the start of `hay`? -/
def beginsWith : List Char → List Char → Bool
  | [], _ => true
  | _ :: _, [] => false
  | a :: as, b :: bs => a == b && beginsWith as bs

/-- Does `needle` occur anywhere in `hay`? -/
def occursIn (needle : List Char) : List Char → Bool
  | [] => beginsWith needle []
  | c :: cs => beginsWith needle (c :: cs) || occursIn needle cs

/-- Python's substring test `needle in hay` on strings. -/
def containsText (hay needle : String) : Bool := occursIn needle.toList hay.toList

/-- `register_presence_status` from `moodle_painkillers/__init__.py`: GET
the attendance page, find the presence anchor by its exact text, GET its
href, and require the confirmation sentence in the reply body. The status
of neither GET is checked; a found anchor without an href raises KeyError. -/
def register_presence_status (T : Transport) : List Request × Option PyError :=
  let r1 := T 0
  match r1.doc.find? isPresenceAnchor with
  | none => ([.get attendanceUrl], some notFoundErr)
  | some a =>
    match a.attr "href" with
    | none => ([.get attendanceUrl], some (.keyError "href"))
    | some href =>
      let r2 := T 1
      if containsText r2.raw confirmationText then
        ([.get attendanceUrl, .get href], none)
      else
        ([.get attendanceUrl, .get href], some rejectedErr)

/-- The observable outcome of one `main` run: the requests issued, the
exception that escaped (if any), and whether `session.close()` ran. -/
structure RunResult where
  requests : List Request
  error : Option PyError
  closed : Bool
deriving DecidableEq, Repr

/-- The transport as seen after `k` requests have already been issued. -/
def shiftT (T : Transport) (k : Nat) : Transport := fun n => T (n + k)

/-- `main` from `moodle_painkillers/__init__.py` after credentials are
resolved: authenticate, then register presence, then `session.close()`.
There is no `try`/`finally`, so an exception in either step propagates
out of `main` before the close call runs. A successful authentication has
issued exactly four requests, so registration sees the transport shifted
by four. -/
def main (T : Transport) (username password : String) : RunResult :=
  match authenticate_on_moodle T username password with
  | (reqs, some e) => ⟨reqs, some e, false⟩
  | (reqs, none) =>
    match register_presence_status (shiftT T 4) with
    | (reqs2, some e) => ⟨reqs ++ reqs2, some e, false⟩
    | (reqs2, none) => ⟨reqs ++ reqs2, none, true⟩

/-- Build a transport from a finite response schedule. -/
def mkT (rs : List Response) : Transport := fun n => rs.getD n ⟨0, [], "", "", ""⟩

/-- C4: whenever the first GET of the login-initiation endpoint comes back
with a status other than 200, the handshake stops with the
`LoginPageUnavailable`-style exception carrying that status, and the
request trace holds exactly that single GET: no further request is issued. -/
theorem auth_fails_fast_on_login_page (T : Transport) (u p : String)
    (h : (T 0).status ≠ 200) :
    authenticate_on_moodle T u p =
      ([.get loginUrl], some (loginPageErr (T 0).status)) := by
  simp only [authenticate_on_moodle]
  rw [if_pos h]

def resp404 : Response := ⟨404, [], "", "", ""⟩

def T404 : Transport := fun _ => resp404

/-- C4 witness: a transport answering 404 everywhere yields the single-GET
trace and the error message carrying 404. -/
theorem auth_fails_fast_on_login_page_witness :
    authenticate_on_moodle T404 "alice" "s3cret" =
      ([.get loginUrl], some (.exn "404 Failed to get login page")) := by
  have h := auth_fails_fast_on_login_page T404 "alice" "s3cret" (by decide)
  rw [h]
  decide

/-- C5: on a successful handshake the credential-submission POST goes to
the previous response's URL with its query string stripped and carries
exactly the username, password, execution token, `_eventId=submit` and an
empty geolocation field, and the final POST sends exactly the extracted
`RelayState` and `SAMLResponse` to the SAML consumer endpoint. -/
theorem auth_success_requests (T : Transport) (u p ex relay saml : String)
    (h1 : (T 0).status = 200) (h2 : (T 1).status = 200)
    (h3 : get_hidden_input_value (T 1).doc "execution" = .ok ex)
    (h4 : get_hidden_input_value (T 2).doc "RelayState" = .ok relay)
    (h5 : get_hidden_input_value (T 2).doc "SAMLResponse" = .ok saml) :
    authenticate_on_moodle T u p =
      ([.get loginUrl,
        .post loginUrl idpData (some (T 0).cookies),
        .post (urlStripQuery (T 1).url) (credentialData u p ex) none,
        .post samlConsumerUrl [("RelayState", relay), ("SAMLResponse", saml)] none],
       none) := by
  simp [authenticate_on_moodle, h1, h2, h3, h4, h5]

def respLogin : Response := ⟨200, [], "", loginUrl, "JSESSIONID=abc"⟩

def respForm : Response :=
  ⟨200, [inpT "execution" "e1s1"], "",
   "https://idp.example/idp/profile/SAML2/Redirect/SSO?execution=e1s1&tid=42", ""⟩

def respSaml : Response :=
  ⟨200, [inpT "RelayState" "rsv", inpT "SAMLResponse" "saml64"], "", "", ""⟩

def respPlain : Response := ⟨200, [], "", "", ""⟩

def Tsuccess : Transport := mkT [respLogin, respForm, respSaml, respPlain]

/-- C5 witness: on a concrete schedule whose second response redirected to
a URL carrying tracking parameters, the third POST goes to that URL with
the query string removed and the bodies are literally as specified. -/
theorem auth_success_requests_witness :
    authenticate_on_moodle Tsuccess "alice" "s3cret" =
      ([.get loginUrl,
        .post loginUrl idpData (some "JSESSIONID=abc"),
        .post "https://idp.example/idp/profile/SAML2/Redirect/SSO"
          [("username", "alice"), ("password", "s3cret"), ("execution", "e1s1"),
           ("_eventId", "submit"), ("geolocation", "")] none,
        .post samlConsumerUrl [("RelayState", "rsv"), ("SAMLResponse", "saml64")] none],
       none) := by
  have h := auth_success_requests Tsuccess "alice" "s3cret" "e1s1" "rsv" "saml64"
    (by decide) (by decide) (by decide) (by decide) (by decide)
  rw [h]
  decide

def Tnosaml : Transport := mkT [respLogin, respForm, respPlain, respPlain]

/-- C6 counterexample: when the credential-submission response lacks the
SAML hidden fields, the module-level Authenticator — the one `main` runs —
fails with the generic FieldNotFound `ValueError`, not with the
credentials-likely-incorrect `SamlAssertionMissing` exception. -/
theorem module_auth_fieldnotfound_on_missing_saml :
    (authenticate_on_moodle Tnosaml "alice" "s3cret").2 =
      some (.valueError "Element RelayState introuvable")
    ∧ PyError.valueError "Element RelayState introuvable" ≠ samlMissingErr := by
  refine ⟨by decide, by decide⟩

/-- C6 amended: only `MoodleAuthenticatedSession.authenticate_on_moodle`
converts a missing `RelayState`/`SAMLResponse` into the distinct
`SamlAssertionMissing` exception; the module-level `authenticate_on_moodle`
propagates the raw FieldNotFound `ValueError` instead. -/
theorem saml_missing_error_split (T : Transport) (u p m : String)
    (h1 : (T 0).status = 200) (h2 : (T 1).status = 200)
    (h3 : ∃ ex, get_hidden_input_value (T 1).doc "execution" = .ok ex)
    (h4 : samlFields (T 2).doc = .error (.valueError m)) :
    (MoodleAuthenticatedSession.authenticate_on_moodle T u p).2 = some samlMissingErr
    ∧ (authenticate_on_moodle T u p).2 = some (.valueError m) := by
  obtain ⟨ex, hE⟩ := h3
  constructor
  · simp [MoodleAuthenticatedSession.authenticate_on_moodle, h1, h2, hE, h4]
  · unfold samlFields at h4
    cases hR : get_hidden_input_value (T 2).doc "RelayState" with
    | error e =>
      rw [hR] at h4
      simp only [Except.error.injEq] at h4
      subst h4
      simp [authenticate_on_moodle, h1, h2, hE, hR]
    | ok r =>
      rw [hR] at h4
      cases hS : get_hidden_input_value (T 2).doc "SAMLResponse" with
      | error e =>
        rw [hS] at h4
        simp only [Except.error.injEq] at h4
        subst h4
        simp [authenticate_on_moodle, h1, h2, hE, hR, hS]
      | ok s =>
        rw [hS] at h4
        exact absurd h4 (by simp)

/-- C6 amended witness: both behaviours evaluated on the concrete schedule
whose third response has no SAML fields. -/
theorem saml_missing_error_split_witness :
    (MoodleAuthenticatedSession.authenticate_on_moodle Tnosaml "alice" "s3cret").2 =
      some samlMissingErr
    ∧ (authenticate_on_moodle Tnosaml "alice" "s3cret").2 =
      some (.valueError "Element RelayState introuvable") :=
  saml_missing_error_split Tnosaml "alice" "s3cret" "Element RelayState introuvable"
    (by decide) (by decide) ⟨"e1s1", by decide⟩ (by decide)

def respSaml500 : Response :=
  ⟨500, [inpT "RelayState" "rsv", inpT "SAMLResponse" "saml64"], "", "", ""⟩

def resp404b : Response := ⟨404, [], "", "", ""⟩

def Tlate : Transport := mkT [respLogin, respForm, respSaml500, resp404b]

/-- C7 counterexample: a run whose credential-submission response has
status 500 and whose SAML-consumer response has status 404 still completes
with no error, because the code never checks the status of the last two
responses; so success does not require every step to return an expected
status. -/
theorem auth_ignores_late_statuses :
    (authenticate_on_moodle Tlate "alice" "s3cret").2 = none
    ∧ (Tlate 2).status ≠ 200 ∧ (Tlate 3).status ≠ 200 := by
  refine ⟨by decide, by decide, by decide⟩

/-- C7 amended: the Authenticator completes without error exactly when the
first two responses have status 200 and the `execution`, `RelayState` and
`SAMLResponse` hidden fields are all extractable; any of those guard
failures is terminal, but the statuses of the third and fourth responses
are never checked. -/
theorem auth_success_characterization (T : Transport) (u p : String) :
    (authenticate_on_moodle T u p).2 = none ↔
      ((T 0).status = 200 ∧ (T 1).status = 200
        ∧ (∃ ex, get_hidden_input_value (T 1).doc "execution" = .ok ex)
        ∧ (∃ r, get_hidden_input_value (T 2).doc "RelayState" = .ok r)
        ∧ (∃ s, get_hidden_input_value (T 2).doc "SAMLResponse" = .ok s)) := by
  by_cases h1 : (T 0).status = 200
  case neg => simp [authenticate_on_moodle, h1]
  by_cases h2 : (T 1).status = 200
  case neg => simp [authenticate_on_moodle, h1, h2]
  cases hE : get_hidden_input_value (T 1).doc "execution" with
  | error e => simp [authenticate_on_moodle, h1, h2, hE]
  | ok ex =>
    cases hR : get_hidden_input_value (T 2).doc "RelayState" with
    | error e => simp [authenticate_on_moodle, h1, h2, hE, hR]
    | ok r =>
      cases hS : get_hidden_input_value (T 2).doc "SAMLResponse" with
      | error e => simp [authenticate_on_moodle, h1, h2, hE, hR, hS]
      | ok s => simp [authenticate_on_moodle, h1, h2, hE, hR, hS]

/-- C10 counterexample: on a schedule whose credential-submission response
lacks the SAML fields, the module-level function and the session method
fail with different exceptions, so they are not behaviorally equivalent. -/
theorem module_method_not_equivalent :
    authenticate_on_moodle Tnosaml "alice" "s3cret" ≠
      MoodleAuthenticatedSession.authenticate_on_moodle Tnosaml "alice" "s3cret" := by
  decide

/-- C10 amended: for every transport schedule and credential pair the two
implementations issue the same requests in the same order and one succeeds
exactly when the other does; their errors also coincide, except that where
the module-level function propagates a FieldNotFound `ValueError` from the
SAML-field extraction, the method raises `SamlAssertionMissing`. -/
theorem module_method_equivalence (T : Transport) (u p : String) :
    (authenticate_on_moodle T u p).1 =
      (MoodleAuthenticatedSession.authenticate_on_moodle T u p).1
    ∧ ((authenticate_on_moodle T u p).2 = none ↔
        (MoodleAuthenticatedSession.authenticate_on_moodle T u p).2 = none)
    ∧ ((authenticate_on_moodle T u p).2 =
          (MoodleAuthenticatedSession.authenticate_on_moodle T u p).2
        ∨ ∃ m, (authenticate_on_moodle T u p).2 = some (.valueError m)
            ∧ (MoodleAuthenticatedSession.authenticate_on_moodle T u p).2 =
                some samlMissingErr) := by
  by_cases h1 : (T 0).status = 200
  case neg =>
    simp [authenticate_on_moodle, MoodleAuthenticatedSession.authenticate_on_moodle, h1]
  by_cases h2 : (T 1).status = 200
  case neg =>
    simp [authenticate_on_moodle, MoodleAuthenticatedSession.authenticate_on_moodle, h1, h2]
  cases hE : get_hidden_input_value (T 1).doc "execution" with
  | error e =>
    simp [authenticate_on_moodle, MoodleAuthenticatedSession.authenticate_on_moodle,
      h1, h2, hE]
  | ok ex =>
    cases hR : get_hidden_input_value (T 2).doc "RelayState" with
    | error e =>
      cases e with
      | valueError m =>
        refine ⟨?_, ?_, Or.inr ⟨m, ?_, ?_⟩⟩ <;>
          simp [authenticate_on_moodle, MoodleAuthenticatedSession.authenticate_on_moodle,
            samlFields, h1, h2, hE, hR]
      | keyError k =>
        simp [authenticate_on_moodle, MoodleAuthenticatedSession.authenticate_on_moodle,
          samlFields, h1, h2, hE, hR]
      | exn m =>
        simp [authenticate_on_moodle, MoodleAuthenticatedSession.authenticate_on_moodle,
          samlFields, h1, h2, hE, hR]
    | ok r =>
      cases hS : get_hidden_input_value (T 2).doc "SAMLResponse" with
      | error e =>
        cases e with
        | valueError m =>
          refine ⟨?_, ?_, Or.inr ⟨m, ?_, ?_⟩⟩ <;>
            simp [authenticate_on_moodle, MoodleAuthenticatedSession.authenticate_on_moodle,
              samlFields, h1, h2, hE, hR, hS]
        | keyError k =>
          simp [authenticate_on_moodle, MoodleAuthenticatedSession.authenticate_on_moodle,
            samlFields, h1, h2, hE, hR, hS]
        | exn m =>
          simp [authenticate_on_moodle, MoodleAuthenticatedSession.authenticate_on_moodle,
            samlFields, h1, h2, hE, hR, hS]
      | ok s =>
        simp [authenticate_on_moodle, MoodleAuthenticatedSession.authenticate_on_moodle,
          samlFields, h1, h2, hE, hR, hS]

/-- C8: `register_presence_status` succeeds exactly when the attendance
page holds the presence anchor (exact text match) with an href whose GET
returns a body containing the confirmation sentence; an anchor whose GET
body lacks the confirmation fails with `RegistrationRejected`; a page
without the anchor fails with the `AlreadyCheckedIn`-style error. -/
theorem register_presence_spec (T : Transport) :
    ((register_presence_status T).2 = none ↔
      ∃ a h, (T 0).doc.find? isPresenceAnchor = some a ∧ a.attr "href" = some h
        ∧ containsText (T 1).raw confirmationText = true)
    ∧ (∀ a h, (T 0).doc.find? isPresenceAnchor = some a → a.attr "href" = some h →
        containsText (T 1).raw confirmationText = true →
        register_presence_status T = ([.get attendanceUrl, .get h], none))
    ∧ (∀ a h, (T 0).doc.find? isPresenceAnchor = some a → a.attr "href" = some h →
        containsText (T 1).raw confirmationText = false →
        register_presence_status T = ([.get attendanceUrl, .get h], some rejectedErr))
    ∧ ((T 0).doc.find? isPresenceAnchor = none →
        register_presence_status T = ([.get attendanceUrl], some notFoundErr)) := by
  cases hF : (T 0).doc.find? isPresenceAnchor with
  | none => simp [register_presence_status, hF]
  | some a =>
    cases hA : a.attr "href" with
    | none =>
      simp [register_presence_status, hF, hA]
      refine ⟨fun a' h' ha hh => ?_, fun a' h' ha hh => ?_⟩ <;>
        · subst ha
          simp [hA] at hh
    | some href =>
      cases hC : containsText (T 1).raw confirmationText with
      | true =>
        simp [register_presence_status, hF, hA, hC]
        intro a' h' ha hh
        subst ha
        rw [hA] at hh
        exact Option.some.inj hh
      | false =>
        simp [register_presence_status, hF, hA, hC]
        intro a' h' ha hh
        subst ha
        rw [hA] at hh
        exact Option.some.inj hh

def statusHref : String := "https://moodle.univ-ubs.fr/mod/attendance/attendance.php?sessid=7"

def presenceAnchor : Tag := ⟨"a", [("href", statusHref)], some presenceLabel⟩

def attendanceDocYes : Doc := [presenceAnchor]

def confirmBody : String :=
  "<html>Votre présence à cette session a été enregistrée.</html>"

def TregSuccess : Transport :=
  mkT [⟨200, attendanceDocYes, "", attendanceUrl, ""⟩, ⟨200, [], confirmBody, "", ""⟩]

def TregRejected : Transport :=
  mkT [⟨200, attendanceDocYes, "", attendanceUrl, ""⟩, ⟨200, [], "Erreur interne", "", ""⟩]

def TregAbsent : Transport :=
  mkT [⟨200, [], "", attendanceUrl, ""⟩, ⟨200, [], confirmBody, "", ""⟩]

/-- C8 witness: the three outcomes evaluated on concrete schedules — the
anchor present with a confirming reply, present with a non-confirming
reply, and absent. -/
theorem register_presence_spec_witness :
    register_presence_status TregSuccess = ([.get attendanceUrl, .get statusHref], none)
    ∧ register_presence_status TregRejected =
        ([.get attendanceUrl, .get statusHref], some rejectedErr)
    ∧ register_presence_status TregAbsent = ([.get attendanceUrl], some notFoundErr) :=
  ⟨(register_presence_spec TregSuccess).2.1 presenceAnchor statusHref
      (by decide) (by decide) (by decide),
   (register_presence_spec TregRejected).2.2.1 presenceAnchor statusHref
      (by decide) (by decide) (by decide),
   (register_presence_spec TregAbsent).2.2.2 (by decide)⟩

/-- C9 counterexample: on a run whose first response is a 404,
authentication raises, the exception escapes `main` before
`session.close()` is reached, and the run ends with the session unclosed. -/
theorem session_left_open_on_failure :
    (main T404 "alice" "s3cret").closed = false
    ∧ (main T404 "alice" "s3cret").error ≠ none := by
  refine ⟨by decide, by decide⟩

/-- C9 amended: `main` closes its session exactly on the success path;
whenever authentication or registration raises, the exception propagates
out of `main` before the close call, leaving the session open. -/
theorem session_closed_iff_success (T : Transport) (u p : String) :
    (main T u p).closed = true ↔ (main T u p).error = none := by
  unfold main
  cases hA : authenticate_on_moodle T u p with
  | mk reqs e =>
    cases e with
    | some e => simp
    | none =>
      cases hR : register_presence_status (shiftT T 4) with
      | mk reqs2 e2 => cases e2 <;> simp

end Moodle
